import Mathlib

/-!
Shallow embedding of the hybrid quantum-energy periodic system implemented in
src/Galactic-Elements/v6_HybridPeriodicSystem.py.

Numeric conventions of the embedding: Python float values and their decimal
literals are embedded as exact rationals; Python `int(x)` applied to the
nonnegative quantities arising in this program agrees with `Int.floor` and is
embedded as such.  Fallible operations (table lookup miss, division by zero)
are embedded with `Option`.  Python strings are embedded as `String`, with
character-level operations (`lower`, `endswith`, `in`) carried out on the
underlying character lists; ASCII lowering agrees with Python `str.lower` on
the configuration alphabet used by the program.
-/

namespace GalacticElements

/-- The nine energy categories of the Python `EnergyType` enum. -/
inductive EnergyType
  | heat
  | light
  | magnetism
  | electricity
  | radiowaves
  | microGravity
  | macroGravity
  | thermonuclear
  | radioactivity
  deriving DecidableEq

/-- The five element clusters of the Python `ElementType` enum. -/
inductive ElementType
  | activeMetals
  | mediumMetals
  | semiMetals
  | nonMetals
  | inertGases
  deriving DecidableEq

/-- The three allocation levels of the Python `EnergyLevel` enum
(level 1 is the outer level, level 3 the inner one). -/
inductive EnergyLevel
  | level1
  | level2
  | level3
  deriving DecidableEq

/-- Python enum member name of each energy category (`energy.name`). -/
def energyName : EnergyType → String
  | .heat => "HEAT"
  | .light => "LIGHT"
  | .magnetism => "MAGNETISM"
  | .electricity => "ELECTRICITY"
  | .radiowaves => "RADIOWAVES"
  | .microGravity => "MICRO_GRAVITY"
  | .macroGravity => "MACRO_GRAVITY"
  | .thermonuclear => "THERMONUCLEAR"
  | .radioactivity => "RADIOACTIVITY"

/-- The `DOMINANT_ENERGY_TO_TYPE` dictionary.  Only five of the nine
categories are keys; a missing key is `none`. -/
def dominantEnergyToType : EnergyType → Option ElementType
  | .magnetism => some .activeMetals
  | .electricity => some .mediumMetals
  | .radiowaves => some .semiMetals
  | .heat => some .nonMetals
  | .light => some .inertGases
  | _ => none

/-- The `LEVEL_ENERGY_DISTRIBUTION` dictionary of top-level ratios. -/
def levelEnergyDistribution : EnergyLevel → ℚ
  | .level3 => 0.55
  | .level2 => 0.33
  | .level1 => 0.12

/-- The `FIRST_LEVEL_ENERGY_RATIO` dictionary.  The dictionary holds only the
five listed keys; since every later read of a first-level allocation uses the
`get(energy, 0)` default, absent keys are embedded as ratio `0`. -/
def firstLevelEnergyShare : EnergyType → ℚ
  | .heat => 0.40
  | .light => 0.30
  | .magnetism => 0.20
  | .electricity => 0.06
  | .radiowaves => 0.04
  | _ => 0

/-- The `SECOND_LEVEL_ENERGY_RATIO` dictionary, absent keys read as `0`. -/
def secondLevelEnergyShare : EnergyType → ℚ
  | .thermonuclear => 0.50
  | .radioactivity => 0.30
  | .microGravity => 0.20
  | _ => 0

/-- The `THIRD_LEVEL_ENERGY_RATIO` dictionary, absent keys read as `0`. -/
def thirdLevelEnergyShare : EnergyType → ℚ
  | .macroGravity => 0.60
  | .microGravity => 0.25
  | .thermonuclear => 0.15
  | _ => 0

/-- Total quantum budget of `_calculate_energy_profile`:
`int(base_quanta * atomic_mass)` with `base_quanta = 1600`. -/
def totalQuanta (atomicMass : ℚ) : ℤ := ⌊(1600 : ℚ) * atomicMass⌋

/-- One raw level total: `int(total * ratio)` for a top-level ratio. -/
def rawLevel (total : ℤ) (ratio : ℚ) : ℤ := ⌊(total : ℚ) * ratio⌋

/-- The three reconciled level totals. -/
structure LevelTotals where
  level1 : ℤ
  level2 : ℤ
  level3 : ℤ

/-- Level splitting and reconciliation of `_calculate_energy_profile`
(lines 260-266): each level total is floored independently and, when the
three floors do not sum to `total`, the whole difference is added to the
third (inner) level. -/
def allocateLevels (total : ℤ) : LevelTotals :=
  let level3Quanta := rawLevel total (levelEnergyDistribution EnergyLevel.level3)
  let level2Quanta := rawLevel total (levelEnergyDistribution EnergyLevel.level2)
  let level1Quanta := rawLevel total (levelEnergyDistribution EnergyLevel.level1)
  let totalCalculated := level1Quanta + level2Quanta + level3Quanta
  if totalCalculated ≠ total then
    ⟨level1Quanta, level2Quanta, level3Quanta + (total - totalCalculated)⟩
  else
    ⟨level1Quanta, level2Quanta, level3Quanta⟩

/-- The computed `QuantumEnergyProfile`: total and per-level quanta, the
per-level category distributions, and the two derived metrics.  The
vibrational coefficient divides by `total_quanta`, which in Python raises
`ZeroDivisionError` when the denominator is zero, so it is embedded as an
`Option` that is `none` exactly in that case. -/
structure QuantumEnergyProfile where
  totalQuanta : ℤ
  levels : LevelTotals
  level1Dist : EnergyType → ℤ
  level2Dist : EnergyType → ℤ
  level3Dist : EnergyType → ℤ
  resonanceFrequency : ℚ
  vibrationalCoefficient : Option ℚ

/-- The `_calculate_energy_profile` method (lines 254-290). -/
def calculateEnergyProfile (atomicMass stability ionizationEnergy : ℚ) :
    QuantumEnergyProfile :=
  let total := totalQuanta atomicMass
  let levels := allocateLevels total
  { totalQuanta := total
    levels := levels
    level1Dist := fun e => ⌊(levels.level1 : ℚ) * firstLevelEnergyShare e⌋
    level2Dist := fun e => ⌊(levels.level2 : ℚ) * secondLevelEnergyShare e⌋
    level3Dist := fun e => ⌊(levels.level3 : ℚ) * thirdLevelEnergyShare e⌋
    resonanceFrequency := ionizationEnergy * 2.417989e14
    vibrationalCoefficient :=
      if total = 0 then none
      else some (stability * 0.6 + ((levels.level1 : ℚ) / (total : ℚ)) * 0.2 +
        (ionizationEnergy / 24.587) * 0.2) }

/-- Python substring test `pat in s` on character lists. -/
def charsContains (pat : List Char) : List Char → Bool
  | [] => pat.isEmpty
  | c :: rest => pat.isPrefixOf (c :: rest) || charsContains pat rest

/-- Python `s.endswith(pat)` on character lists. -/
def charsEndsWith (s pat : List Char) : Bool :=
  pat.reverse.isPrefixOf s.reverse

/-- Python `s.lower()` restricted to ASCII case mapping, which agrees with
`str.lower` on the configuration strings of the table. -/
def lowerChars (s : String) : List Char :=
  s.data.map Char.toLower

/-- The `_determine_element_type` method (lines 292-312): the ordered if/elif
chain assigning a dominant energy and an element type. -/
def determineElementType (atomicNumber : ℕ) (configuration : String) :
    EnergyType × ElementType :=
  let config := lowerChars configuration
  if atomicNumber == 1 then (.heat, .nonMetals)
  else if charsEndsWith config (("p⁶").data) then (.light, .inertGases)
  else if [("p⁵"), ("p⁴"), ("p³")].any (fun x => charsContains x.data config) then
    (.heat, .nonMetals)
  else if [("p¹"), ("p²")].any (fun x => charsContains x.data config) then
    (.radiowaves, .semiMetals)
  else if charsEndsWith config (("s¹").data) then (.magnetism, .activeMetals)
  else (.electricity, .mediumMetals)

/-- The rules of the classifier as an ordered list of (predicate, result)
pairs, stated from the specification of section 4.1: rule 1 is the hydrogen
exception, rules 2-5 are the configuration tests, and the default result for
a fallthrough is Electricity/MediumMetals. -/
def classifierRules : List ((ℕ → String → Bool) × (EnergyType × ElementType)) :=
  [ (fun z _ => z == 1, (.heat, .nonMetals)),
    (fun _ c => charsEndsWith (lowerChars c) (("p⁶").data), (.light, .inertGases)),
    (fun _ c => [("p⁵"), ("p⁴"), ("p³")].any
      (fun x => charsContains x.data (lowerChars c)), (.heat, .nonMetals)),
    (fun _ c => [("p¹"), ("p²")].any
      (fun x => charsContains x.data (lowerChars c)), (.radiowaves, .semiMetals)),
    (fun _ c => charsEndsWith (lowerChars c) (("s¹").data),
      (.magnetism, .activeMetals)) ]

/-- First-match evaluation of an ordered rule list with a default result. -/
def firstMatch (rules : List ((ℕ → String → Bool) × (EnergyType × ElementType)))
    (default : EnergyType × ElementType) (z : ℕ) (c : String) :
    EnergyType × ElementType :=
  match rules with
  | [] => default
  | (p, r) :: rest => if p z c then r else firstMatch rest default z c

/-- Order of categories in `_generate_energy_signature` (lines 318-319). -/
def signatureOrder : List EnergyType :=
  [.heat, .light, .magnetism, .electricity, .radiowaves]

/-- The `_generate_energy_signature` method (lines 314-323): the two-letter
code of each category in the fixed order, concatenated with its first-level
quanta, joined by a dash. -/
def generateEnergySignature (profile : QuantumEnergyProfile) : String :=
  String.intercalate ("-")
    (signatureOrder.map (fun e => (energyName e).take 2 ++ toString (profile.level1Dist e)))

/-- The `NucleusStructure` dataclass. -/
structure NucleusStructure where
  protons : ℕ
  neutrons : ℕ
  stability : ℚ
  bindingEnergy : ℚ
  spin : ℚ := 0
  magneticMoment : ℚ := 0

/-- The `ElectronStructure` dataclass. -/
structure ElectronStructure where
  configuration : String
  valenceElectrons : ℕ
  ionizationEnergy : ℚ
  electronAffinity : ℚ

/-- The `HybridElement` dataclass after `__post_init__` has filled the
derived fields. -/
structure HybridElement where
  name : String
  symbol : String
  atomicNumber : ℕ
  atomicMass : ℚ
  nucleus : NucleusStructure
  electrons : ElectronStructure
  energyProfile : QuantumEnergyProfile
  dominantEnergy : EnergyType
  elementType : ElementType
  energySignature : String

/-- Construction of a `HybridElement`, mirroring `__post_init__`: the energy
profile, the classification, and the signature are computed from the inputs. -/
def mkHybridElement (name symbol : String) (atomicNumber : ℕ) (atomicMass : ℚ)
    (nucleus : NucleusStructure) (electrons : ElectronStructure) : HybridElement :=
  let profile := calculateEnergyProfile atomicMass nucleus.stability
    electrons.ionizationEnergy
  let classification := determineElementType atomicNumber electrons.configuration
  { name := name
    symbol := symbol
    atomicNumber := atomicNumber
    atomicMass := atomicMass
    nucleus := nucleus
    electrons := electrons
    energyProfile := profile
    dominantEnergy := classification.1
    elementType := classification.2
    energySignature := generateEnergySignature profile }

/-- One row of the `ELEMENTS_DATA` table. -/
structure ElementData where
  z : ℕ
  symbol : String
  name : String
  mass : ℚ
  configuration : String
  protons : ℕ
  neutrons : ℕ
  stability : ℚ
  ionizationEnergy : ℚ

/-- The `_calculate_valence_electrons` static method. -/
def calculateValenceElectrons (config : String) : ℕ :=
  if charsContains (("s¹").data) config.data &&
      !([("p"), ("d"), ("f")].any (fun x => charsContains x.data config.data)) then 1
  else if charsContains (("s²").data) config.data &&
      !([("p"), ("d"), ("f")].any (fun x => charsContains x.data config.data)) then 2
  else if charsContains (("p¹").data) config.data then 3
  else if charsContains (("p²").data) config.data then 4
  else if charsContains (("p³").data) config.data then 5
  else if charsContains (("p⁴").data) config.data then 6
  else if charsContains (("p⁵").data) config.data then 7
  else if charsContains (("p⁶").data) config.data then 8
  else 0

/-- Rows 1-20 of the `ELEMENTS_DATA` table. -/
def elementsDataPart1 : List ElementData := [
  ⟨1, "H", "Водород", 1.008, "1s¹", 1, 0, 0.999, 13.598⟩,
  ⟨2, "He", "Гелий", 4.0026, "1s²", 2, 2, 0.999, 24.587⟩,
  ⟨3, "Li", "Литий", 6.941, "[He] 2s¹", 3, 4, 0.999, 5.392⟩,
  ⟨4, "Be", "Бериллий", 9.0122, "[He] 2s²", 4, 5, 0.999, 9.323⟩,
  ⟨5, "B", "Бор", 10.81, "[He] 2s² 2p¹", 5, 6, 0.999, 8.298⟩,
  ⟨6, "C", "Углерод", 12.011, "[He] 2s² 2p²", 6, 6, 0.999, 11.260⟩,
  ⟨7, "N", "Азот", 14.007, "[He] 2s² 2p³", 7, 7, 0.999, 14.534⟩,
  ⟨8, "O", "Кислород", 15.999, "[He] 2s² 2p⁴", 8, 8, 0.999, 13.618⟩,
  ⟨9, "F", "Фтор", 18.998, "[He] 2s² 2p⁵", 9, 10, 0.999, 17.423⟩,
  ⟨10, "Ne", "Неон", 20.180, "[He] 2s² 2p⁶", 10, 10, 0.999, 21.565⟩,
  ⟨11, "Na", "Натрий", 22.990, "[Ne] 3s¹", 11, 12, 0.999, 5.139⟩,
  ⟨12, "Mg", "Магний", 24.305, "[Ne] 3s²", 12, 12, 0.999, 7.646⟩,
  ⟨13, "Al", "Алюминий", 26.982, "[Ne] 3s² 3p¹", 13, 14, 0.999, 5.986⟩,
  ⟨14, "Si", "Кремний", 28.085, "[Ne] 3s² 3p²", 14, 14, 0.999, 8.152⟩,
  ⟨15, "P", "Фосфор", 30.974, "[Ne] 3s² 3p³", 15, 16, 0.999, 10.487⟩,
  ⟨16, "S", "Сера", 32.06, "[Ne] 3s² 3p⁴", 16, 16, 0.999, 10.360⟩,
  ⟨17, "Cl", "Хлор", 35.45, "[Ne] 3s² 3p⁵", 17, 18, 0.999, 12.968⟩,
  ⟨18, "Ar", "Аргон", 39.948, "[Ne] 3s² 3p⁶", 18, 22, 0.999, 15.760⟩,
  ⟨19, "K", "Калий", 39.098, "[Ar] 4s¹", 19, 20, 0.999, 4.341⟩,
  ⟨20, "Ca", "Кальций", 40.078, "[Ar] 4s²", 20, 20, 0.999, 6.113⟩]

/-- Rows 21-40 of the `ELEMENTS_DATA` table. -/
def elementsDataPart2 : List ElementData := [
  ⟨21, "Sc", "Скандий", 44.956, "[Ar] 3d¹ 4s²", 21, 24, 0.999, 6.561⟩,
  ⟨22, "Ti", "Титан", 47.867, "[Ar] 3d² 4s²", 22, 26, 0.999, 6.828⟩,
  ⟨23, "V", "Ванадий", 50.942, "[Ar] 3d³ 4s²", 23, 28, 0.999, 6.746⟩,
  ⟨24, "Cr", "Хром", 51.996, "[Ar] 3d⁵ 4s¹", 24, 28, 0.999, 6.767⟩,
  ⟨25, "Mn", "Марганец", 54.938, "[Ar] 3d⁵ 4s²", 25, 30, 0.999, 7.434⟩,
  ⟨26, "Fe", "Железо", 55.845, "[Ar] 3d⁶ 4s²", 26, 30, 0.999, 7.902⟩,
  ⟨27, "Co", "Кобальт", 58.933, "[Ar] 3d⁷ 4s²", 27, 32, 0.999, 7.881⟩,
  ⟨28, "Ni", "Никель", 58.693, "[Ar] 3d⁸ 4s²", 28, 30, 0.999, 7.640⟩,
  ⟨29, "Cu", "Медь", 63.546, "[Ar] 3d¹⁰ 4s¹", 29, 34, 0.999, 7.726⟩,
  ⟨30, "Zn", "Цинк", 65.38, "[Ar] 3d¹⁰ 4s²", 30, 35, 0.999, 9.394⟩,
  ⟨31, "Ga", "Галлий", 69.723, "[Ar] 3d¹⁰ 4s² 4p¹", 31, 39, 0.999, 5.999⟩,
  ⟨32, "Ge", "Германий", 72.630, "[Ar] 3d¹⁰ 4s² 4p²", 32, 41, 0.999, 7.899⟩,
  ⟨33, "As", "Мышьяк", 74.922, "[Ar] 3d¹⁰ 4s² 4p³", 33, 42, 0.999, 9.789⟩,
  ⟨34, "Se", "Селен", 78.971, "[Ar] 3d¹⁰ 4s² 4p⁴", 34, 45, 0.999, 9.752⟩,
  ⟨35, "Br", "Бром", 79.904, "[Ar] 3d¹⁰ 4s² 4p⁵", 35, 44, 0.999, 11.814⟩,
  ⟨36, "Kr", "Криптон", 83.798, "[Ar] 3d¹⁰ 4s² 4p⁶", 36, 48, 0.999, 14.000⟩,
  ⟨37, "Rb", "Рубидий", 85.468, "[Kr] 5s¹", 37, 48, 0.999, 4.177⟩,
  ⟨38, "Sr", "Стронций", 87.62, "[Kr] 5s²", 38, 50, 0.999, 5.695⟩,
  ⟨39, "Y", "Иттрий", 88.906, "[Kr] 4d¹ 5s²", 39, 50, 0.999, 6.217⟩,
  ⟨40, "Zr", "Цирконий", 91.224, "[Kr] 4d² 5s²", 40, 51, 0.999, 6.634⟩]

/-- Rows 41-60 of the `ELEMENTS_DATA` table. -/
def elementsDataPart3 : List ElementData := [
  ⟨41, "Nb", "Ниобий", 92.906, "[Kr] 4d⁴ 5s¹", 41, 52, 0.999, 6.759⟩,
  ⟨42, "Mo", "Молибден", 95.95, "[Kr] 4d⁵ 5s¹", 42, 54, 0.999, 7.092⟩,
  ⟨43, "Tc", "Технеций", 98.0, "[Kr] 4d⁵ 5s²", 43, 55, 0.100, 7.280⟩,
  ⟨44, "Ru", "Рутений", 101.07, "[Kr] 4d⁷ 5s¹", 44, 56, 0.999, 7.361⟩,
  ⟨45, "Rh", "Родий", 102.91, "[Kr] 4d⁸ 5s¹", 45, 58, 0.999, 7.459⟩,
  ⟨46, "Pd", "Палладий", 106.42, "[Kr] 4d¹⁰", 46, 60, 0.999, 8.337⟩,
  ⟨47, "Ag", "Серебро", 107.87, "[Kr] 4d¹⁰ 5s¹", 47, 61, 0.999, 7.576⟩,
  ⟨48, "Cd", "Кадмий", 112.41, "[Kr] 4d¹⁰ 5s²", 48, 64, 0.999, 8.994⟩,
  ⟨49, "In", "Индий", 114.82, "[Kr] 4d¹⁰ 5s² 5p¹", 49, 66, 0.999, 5.786⟩,
  ⟨50, "Sn", "Олово", 118.71, "[Kr] 4d¹⁰ 5s² 5p²", 50, 69, 0.999, 7.344⟩,
  ⟨51, "Sb", "Сурьма", 121.76, "[Kr] 4d¹⁰ 5s² 5p³", 51, 71, 0.999, 8.641⟩,
  ⟨52, "Te", "Теллур", 127.60, "[Kr] 4d¹⁰ 5s² 5p⁴", 52, 76, 0.999, 9.010⟩,
  ⟨53, "I", "Иод", 126.90, "[Kr] 4d¹⁰ 5s² 5p⁵", 53, 74, 0.999, 10.451⟩,
  ⟨54, "Xe", "Ксенон", 131.29, "[Kr] 4d¹⁰ 5s² 5p⁶", 54, 77, 0.999, 12.130⟩,
  ⟨55, "Cs", "Цезий", 132.91, "[Xe] 6s¹", 55, 78, 0.999, 3.894⟩,
  ⟨56, "Ba", "Барий", 137.33, "[Xe] 6s²", 56, 81, 0.999, 5.212⟩,
  ⟨57, "La", "Лантан", 138.91, "[Xe] 5d¹ 6s²", 57, 82, 0.999, 5.577⟩,
  ⟨58, "Ce", "Церий", 140.12, "[Xe] 4f¹ 5d¹ 6s²", 58, 82, 0.999, 5.539⟩,
  ⟨59, "Pr", "Празеодим", 140.91, "[Xe] 4f³ 6s²", 59, 82, 0.999, 5.464⟩,
  ⟨60, "Nd", "Неодим", 144.24, "[Xe] 4f⁴ 6s²", 60, 84, 0.999, 5.525⟩]

/-- Rows 61-80 of the `ELEMENTS_DATA` table. -/
def elementsDataPart4 : List ElementData := [
  ⟨61, "Pm", "Прометий", 145.0, "[Xe] 4f⁵ 6s²", 61, 84, 0.100, 5.582⟩,
  ⟨62, "Sm", "Самарий", 150.36, "[Xe] 4f⁶ 6s²", 62, 88, 0.999, 5.644⟩,
  ⟨63, "Eu", "Европий", 151.96, "[Xe] 4f⁷ 6s²", 63, 89, 0.999, 5.670⟩,
  ⟨64, "Gd", "Гадолиний", 157.25, "[Xe] 4f⁷ 5d¹ 6s²", 64, 93, 0.999, 6.150⟩,
  ⟨65, "Tb", "Тербий", 158.93, "[Xe] 4f⁹ 6s²", 65, 94, 0.999, 5.864⟩,
  ⟨66, "Dy", "Диспрозий", 162.50, "[Xe] 4f¹⁰ 6s²", 66, 97, 0.999, 5.939⟩,
  ⟨67, "Ho", "Гольмий", 164.93, "[Xe] 4f¹¹ 6s²", 67, 98, 0.999, 6.022⟩,
  ⟨68, "Er", "Эрбий", 167.26, "[Xe] 4f¹² 6s²", 68, 99, 0.999, 6.108⟩,
  ⟨69, "Tm", "Тулий", 168.93, "[Xe] 4f¹³ 6s²", 69, 100, 0.999, 6.184⟩,
  ⟨70, "Yb", "Иттербий", 173.05, "[Xe] 4f¹⁴ 6s²", 70, 103, 0.999, 6.254⟩,
  ⟨71, "Lu", "Лютеций", 174.97, "[Xe] 4f¹⁴ 5d¹ 6s²", 71, 104, 0.999, 5.426⟩,
  ⟨72, "Hf", "Гафний", 178.49, "[Xe] 4f¹⁴ 5d² 6s²", 72, 106, 0.999, 6.825⟩,
  ⟨73, "Ta", "Тантал", 180.95, "[Xe] 4f¹⁴ 5d³ 6s²", 73, 108, 0.999, 7.550⟩,
  ⟨74, "W", "Вольфрам", 183.84, "[Xe] 4f¹⁴ 5d⁴ 6s²", 74, 110, 0.999, 7.864⟩,
  ⟨75, "Re", "Рений", 186.21, "[Xe] 4f¹⁴ 5d⁵ 6s²", 75, 111, 0.999, 7.833⟩,
  ⟨76, "Os", "Осмий", 190.23, "[Xe] 4f¹⁴ 5d⁶ 6s²", 76, 114, 0.999, 8.438⟩,
  ⟨77, "Ir", "Иридий", 192.22, "[Xe] 4f¹⁴ 5d⁷ 6s²", 77, 115, 0.999, 8.967⟩,
  ⟨78, "Pt", "Платина", 195.08, "[Xe] 4f¹⁴ 5d⁹ 6s¹", 78, 117, 0.999, 8.959⟩,
  ⟨79, "Au", "Золото", 196.97, "[Xe] 4f¹⁴ 5d¹⁰ 6s¹", 79, 118, 0.999, 9.226⟩,
  ⟨80, "Hg", "Ртуть", 200.59, "[Xe] 4f¹⁴ 5d¹⁰ 6s²", 80, 121, 0.999, 10.438⟩]

/-- Rows 81-100 of the `ELEMENTS_DATA` table. -/
def elementsDataPart5 : List ElementData := [
  ⟨81, "Tl", "Таллий", 204.38, "[Xe] 4f¹⁴ 5d¹⁰ 6s² 6p¹", 81, 123, 0.999, 6.108⟩,
  ⟨82, "Pb", "Свинец", 207.2, "[Xe] 4f¹⁴ 5d¹⁰ 6s² 6p²", 82, 125, 0.999, 7.417⟩,
  ⟨83, "Bi", "Висмут", 208.98, "[Xe] 4f¹⁴ 5d¹⁰ 6s² 6p³", 83, 126, 0.999, 7.289⟩,
  ⟨84, "Po", "Полоний", 209.0, "[Xe] 4f¹⁴ 5d¹⁰ 6s² 6p⁴", 84, 125, 0.100, 8.417⟩,
  ⟨85, "At", "Астат", 210.0, "[Xe] 4f¹⁴ 5d¹⁰ 6s² 6p⁵", 85, 125, 0.100, 9.500⟩,
  ⟨86, "Rn", "Радон", 222.0, "[Xe] 4f¹⁴ 5d¹⁰ 6s² 6p⁶", 86, 136, 0.100, 10.748⟩,
  ⟨87, "Fr", "Франций", 223.0, "[Rn] 7s¹", 87, 136, 0.100, 4.073⟩,
  ⟨88, "Ra", "Радий", 226.0, "[Rn] 7s²", 88, 138, 0.100, 5.279⟩,
  ⟨89, "Ac", "Актиний", 227.0, "[Rn] 6d¹ 7s²", 89, 138, 0.100, 5.170⟩,
  ⟨90, "Th", "Торий", 232.04, "[Rn] 6d² 7s²", 90, 142, 0.999, 6.307⟩,
  ⟨91, "Pa", "Протактиний", 231.04, "[Rn] 5f² 6d¹ 7s²", 91, 140, 0.100, 5.890⟩,
  ⟨92, "U", "Уран", 238.03, "[Rn] 5f³ 6d¹ 7s²", 92, 146, 0.999, 6.194⟩,
  ⟨93, "Np", "Нептуний", 237.0, "[Rn] 5f⁴ 6d¹ 7s²", 93, 144, 0.100, 6.266⟩,
  ⟨94, "Pu", "Плутоний", 244.0, "[Rn] 5f⁶ 7s²", 94, 150, 0.100, 6.026⟩,
  ⟨95, "Am", "Америций", 243.0, "[Rn] 5f⁷ 7s²", 95, 148, 0.100, 5.974⟩,
  ⟨96, "Cm", "Кюрий", 247.0, "[Rn] 5f⁷ 6d¹ 7s²", 96, 151, 0.100, 5.992⟩,
  ⟨97, "Bk", "Берклий", 247.0, "[Rn] 5f⁹ 7s²", 97, 150, 0.100, 6.198⟩,
  ⟨98, "Cf", "Калифорний", 251.0, "[Rn] 5f¹⁰ 7s²", 98, 153, 0.100, 6.282⟩,
  ⟨99, "Es", "Эйнштейний", 252.0, "[Rn] 5f¹¹ 7s²", 99, 153, 0.100, 6.420⟩,
  ⟨100, "Fm", "Фермий", 257.0, "[Rn] 5f¹² 7s²", 100, 157, 0.100, 6.500⟩]

/-- Rows 101-118 of the `ELEMENTS_DATA` table. -/
def elementsDataPart6 : List ElementData := [
  ⟨101, "Md", "Менделевий", 258.0, "[Rn] 5f¹³ 7s²", 101, 157, 0.100, 6.580⟩,
  ⟨102, "No", "Нобелий", 259.0, "[Rn] 5f¹⁴ 7s²", 102, 157, 0.100, 6.650⟩,
  ⟨103, "Lr", "Лоуренсий", 262.0, "[Rn] 5f¹⁴ 7s² 7p¹", 103, 159, 0.100, 4.900⟩,
  ⟨104, "Rf", "Резерфордий", 267.0, "[Rn] 5f¹⁴ 6d² 7s²", 104, 163, 0.010, 6.000⟩,
  ⟨105, "Db", "Дубний", 268.0, "[Rn] 5f¹⁴ 6d³ 7s²", 105, 163, 0.010, 6.800⟩,
  ⟨106, "Sg", "Сиборгий", 269.0, "[Rn] 5f¹⁴ 6d⁴ 7s²", 106, 163, 0.010, 7.900⟩,
  ⟨107, "Bh", "Борий", 270.0, "[Rn] 5f¹⁴ 6d⁵ 7s²", 107, 163, 0.010, 7.900⟩,
  ⟨108, "Hs", "Хассий", 277.0, "[Rn] 5f¹⁴ 6d⁶ 7s²", 108, 169, 0.010, 8.300⟩,
  ⟨109, "Mt", "Мейтнерий", 278.0, "[Rn] 5f¹⁴ 6d⁷ 7s²", 109, 169, 0.010, 8.400⟩,
  ⟨110, "Ds", "Дармштадтий", 281.0, "[Rn] 5f¹⁴ 6d⁷ 7s²", 110, 171, 0.010, 7.600⟩,
  ⟨111, "Rg", "Рентгений", 282.0, "[Rn] 5f¹⁴ 6d⁹ 7s²", 111, 171, 0.010, 7.700⟩,
  ⟨112, "Cn", "Коперниций", 285.0, "[Rn] 5f¹⁴ 6d¹⁰ 7s²", 112, 173, 0.010, 8.900⟩,
  ⟨113, "Nh", "Нихоний", 286.0, "[Rn] 5f¹⁴ 6d¹⁰ 7s² 7p¹", 113, 173, 0.010, 7.000⟩,
  ⟨114, "Fl", "Флеровий", 289.0, "[Rn] 5f¹⁴ 6d¹⁰ 7s² 7p²", 114, 175, 0.010, 8.300⟩,
  ⟨115, "Mc", "Московий", 290.0, "[Rn] 5f¹⁴ 6d¹⁰ 7s² 7p³", 115, 175, 0.010, 5.800⟩,
  ⟨116, "Lv", "Ливерморий", 293.0, "[Rn] 5f¹⁴ 6d¹⁰ 7s² 7p⁴", 116, 177, 0.010, 7.500⟩,
  ⟨117, "Ts", "Теннессин", 294.0, "[Rn] 5f¹⁴ 6d¹⁰ 7s² 7p⁵", 117, 177, 0.010, 7.700⟩,
  ⟨118, "Og", "Оганесон", 294.0, "[Rn] 5f¹⁴ 6d¹⁰ 7s² 7p⁶", 118, 176, 0.010, 8.910⟩]

/-- The full `ELEMENTS_DATA` table of 118 rows (lines 85-204): atomic number,
symbol, name, atomic mass, electron configuration, isotope protons and
neutrons, stability, ionization energy.  The table is split into six parts
only to keep elaboration fast; the concatenation lists the rows in source
order. -/
def elementsData : List ElementData :=
  elementsDataPart1 ++ elementsDataPart2 ++ elementsDataPart3 ++
    elementsDataPart4 ++ elementsDataPart5 ++ elementsDataPart6

/-- The `HybridElementFactory.create_element` static method: the table is
searched for the requested atomic number; a miss yields `None`, a hit builds
the nucleus, the electron structure and the finished `HybridElement`. -/
def createElement (atomicNumber : ℕ) : Option HybridElement :=
  match elementsData.find? (fun item => item.z == atomicNumber) with
  | none => none
  | some d =>
    let nucleus : NucleusStructure :=
      { protons := d.protons
        neutrons := d.neutrons
        stability := d.stability
        bindingEnergy := if d.z > 20 then 8 - ((d.z : ℚ) - 20) * 0.02 else 8 }
    let electrons : ElectronStructure :=
      { configuration := d.configuration
        valenceElectrons := calculateValenceElectrons d.configuration
        ionizationEnergy := d.ionizationEnergy
        electronAffinity := d.ionizationEnergy * 0.3 }
    some (mkHybridElement d.name d.symbol d.z d.mass nucleus electrons)

/-- Cross-level aggregation `get_total_energy_quanta`: the quanta of one
category summed over the three level distributions. -/
def getTotalEnergyQuanta (e : HybridElement) (t : EnergyType) : ℤ :=
  e.energyProfile.level1Dist t + e.energyProfile.level2Dist t +
    e.energyProfile.level3Dist t

/-- Closed form of the reconciliation: the first two levels keep their raw
floors and the third receives the whole difference to the total. -/
theorem allocateLevels_eq (t : ℤ) :
    allocateLevels t =
      ⟨rawLevel t (levelEnergyDistribution EnergyLevel.level1),
       rawLevel t (levelEnergyDistribution EnergyLevel.level2),
       rawLevel t (levelEnergyDistribution EnergyLevel.level3) +
         (t - (rawLevel t (levelEnergyDistribution EnergyLevel.level1) +
               rawLevel t (levelEnergyDistribution EnergyLevel.level2) +
               rawLevel t (levelEnergyDistribution EnergyLevel.level3)))⟩ := by
  unfold allocateLevels
  dsimp only
  split
  · rfl
  next h =>
    have hc : rawLevel t (levelEnergyDistribution EnergyLevel.level1) +
        rawLevel t (levelEnergyDistribution EnergyLevel.level2) +
        rawLevel t (levelEnergyDistribution EnergyLevel.level3) = t := not_not.mp h
    simp only [LevelTotals.mk.injEq, true_and]
    omega

/-- C1: for every element record with positive atomic mass, the three
reconciled level totals sum exactly to the total quantum budget; the outer
and middle levels keep their raw floors, and the entire shortfall of the
three independent floors is added to the inner (third) level only. -/
theorem level_sum_invariant (mass : ℚ) (hm : 0 < mass) :
    (allocateLevels (totalQuanta mass)).level1 +
        (allocateLevels (totalQuanta mass)).level2 +
        (allocateLevels (totalQuanta mass)).level3 = totalQuanta mass ∧
    (allocateLevels (totalQuanta mass)).level1 =
      rawLevel (totalQuanta mass) (levelEnergyDistribution EnergyLevel.level1) ∧
    (allocateLevels (totalQuanta mass)).level2 =
      rawLevel (totalQuanta mass) (levelEnergyDistribution EnergyLevel.level2) ∧
    (allocateLevels (totalQuanta mass)).level3 =
      rawLevel (totalQuanta mass) (levelEnergyDistribution EnergyLevel.level3) +
        (totalQuanta mass -
          (rawLevel (totalQuanta mass) (levelEnergyDistribution EnergyLevel.level1) +
           rawLevel (totalQuanta mass) (levelEnergyDistribution EnergyLevel.level2) +
           rawLevel (totalQuanta mass) (levelEnergyDistribution EnergyLevel.level3))) := by
  rw [allocateLevels_eq (totalQuanta mass)]
  refine ⟨?_, rfl, rfl, rfl⟩
  dsimp only
  ring

/-- C1 witness: the invariant instantiated at the helium mass 4.0026. -/
theorem level_sum_invariant_witness :
    0 < (4.0026 : ℚ) ∧
    ((allocateLevels (totalQuanta 4.0026)).level1 +
        (allocateLevels (totalQuanta 4.0026)).level2 +
        (allocateLevels (totalQuanta 4.0026)).level3 = totalQuanta 4.0026 ∧
    (allocateLevels (totalQuanta 4.0026)).level1 =
      rawLevel (totalQuanta 4.0026) (levelEnergyDistribution EnergyLevel.level1) ∧
    (allocateLevels (totalQuanta 4.0026)).level2 =
      rawLevel (totalQuanta 4.0026) (levelEnergyDistribution EnergyLevel.level2) ∧
    (allocateLevels (totalQuanta 4.0026)).level3 =
      rawLevel (totalQuanta 4.0026) (levelEnergyDistribution EnergyLevel.level3) +
        (totalQuanta 4.0026 -
          (rawLevel (totalQuanta 4.0026) (levelEnergyDistribution EnergyLevel.level1) +
           rawLevel (totalQuanta 4.0026) (levelEnergyDistribution EnergyLevel.level2) +
           rawLevel (totalQuanta 4.0026) (levelEnergyDistribution EnergyLevel.level3)))) :=
  ⟨by norm_num, level_sum_invariant 4.0026 (by norm_num)⟩

/-- C5 counterexample: at total_quanta = 0 the three independently floored
level totals sum to 0, which is not strictly less than the total. -/
theorem raw_level_sum_not_strict_at_zero :
    rawLevel 0 (levelEnergyDistribution EnergyLevel.level3) +
      rawLevel 0 (levelEnergyDistribution EnergyLevel.level2) +
      rawLevel 0 (levelEnergyDistribution EnergyLevel.level1) = 0 ∧
    ¬(rawLevel 0 (levelEnergyDistribution EnergyLevel.level3) +
        rawLevel 0 (levelEnergyDistribution EnergyLevel.level2) +
        rawLevel 0 (levelEnergyDistribution EnergyLevel.level1) < 0) := by
  norm_num [rawLevel, levelEnergyDistribution]

/-- C5 (amended): for every total the sum of the three floored level totals
is at most the total, and the shortfall is at most 2 units. -/
theorem raw_level_sum_shortfall (t : ℤ) :
    rawLevel t (levelEnergyDistribution EnergyLevel.level3) +
      rawLevel t (levelEnergyDistribution EnergyLevel.level2) +
      rawLevel t (levelEnergyDistribution EnergyLevel.level1) ≤ t ∧
    t - (rawLevel t (levelEnergyDistribution EnergyLevel.level3) +
      rawLevel t (levelEnergyDistribution EnergyLevel.level2) +
      rawLevel t (levelEnergyDistribution EnergyLevel.level1)) ≤ 2 := by
  have b3 := Int.floor_le ((t : ℚ) * 0.55)
  have b2 := Int.floor_le ((t : ℚ) * 0.33)
  have b1 := Int.floor_le ((t : ℚ) * 0.12)
  have s3 := Int.sub_one_lt_floor ((t : ℚ) * 0.55)
  have s2 := Int.sub_one_lt_floor ((t : ℚ) * 0.33)
  have s1 := Int.sub_one_lt_floor ((t : ℚ) * 0.12)
  simp only [rawLevel, levelEnergyDistribution]
  constructor
  · have hle : ((⌊(t : ℚ) * 0.55⌋ + ⌊(t : ℚ) * 0.33⌋ + ⌊(t : ℚ) * 0.12⌋ : ℤ) : ℚ) ≤
        ((t : ℤ) : ℚ) := by
      push_cast
      linarith
    exact_mod_cast hle
  · have hlt : ((t - (⌊(t : ℚ) * 0.55⌋ + ⌊(t : ℚ) * 0.33⌋ + ⌊(t : ℚ) * 0.12⌋) : ℤ) : ℚ) <
        ((3 : ℤ) : ℚ) := by
      push_cast
      linarith
    have h3 := Int.cast_lt.mp hlt
    omega

/-- C4: an atomic number of 1 classifies as Heat and NonMetals for every
configuration string; the hydrogen rule precedes all configuration rules. -/
theorem hydrogen_always_heat_nonmetals (configuration : String) :
    determineElementType 1 configuration = (EnergyType.heat, ElementType.nonMetals) := rfl

/-- C3: the classifier is a total function equal to first-match evaluation of
the six ordered rules (five predicate rules and the Electricity default). -/
theorem classifier_is_first_match (z : ℕ) (c : String) :
    determineElementType z c =
      firstMatch classifierRules (EnergyType.electricity, ElementType.mediumMetals) z c := rfl

/-- C6: the element type returned by the classifier is exactly the image of
the returned dominant energy under the fixed five-entry lookup table, and the
four allocation-only categories never occur as classifier output. -/
theorem element_type_is_lookup_of_dominant (z : ℕ) (c : String) :
    dominantEnergyToType (determineElementType z c).1 =
      some (determineElementType z c).2 ∧
    (determineElementType z c).1 ≠ EnergyType.microGravity ∧
    (determineElementType z c).1 ≠ EnergyType.macroGravity ∧
    (determineElementType z c).1 ≠ EnergyType.thermonuclear ∧
    (determineElementType z c).1 ≠ EnergyType.radioactivity := by
  simp only [determineElementType]
  repeat' split
  all_goals decide

/-- C2 counterexample: a record whose total budget is zero (mass 0.0001) does
not get a defined vibrational coefficient; the division is a fault, with no
minimum-of-1 denominator substitution in the code. -/
theorem vibrational_zero_total_is_fault :
    totalQuanta 0.0001 = 0 ∧
    ((calculateEnergyProfile 0.0001 0.999 13.598).vibrationalCoefficient.isSome = false) := by
  have h : totalQuanta 0.0001 = 0 := by norm_num [totalQuanta]
  refine ⟨h, ?_⟩
  simp [calculateEnergyProfile, h]

/-- C2 (amended): whenever total_quanta is zero, the vibrational coefficient
is an unguarded division by zero, embedded as `none`; no substitute
denominator yields a defined zero-percentage result. -/
theorem vibrational_none_of_zero_total (mass stability ionizationEnergy : ℚ)
    (h : totalQuanta mass = 0) :
    (calculateEnergyProfile mass stability ionizationEnergy).vibrationalCoefficient =
      none := by
  simp [calculateEnergyProfile, h]

/-- C2 witness: the amended statement applied at mass 0.0001. -/
theorem vibrational_none_of_zero_total_witness :
    totalQuanta 0.0001 = 0 ∧
    (calculateEnergyProfile 0.0001 0.999 13.598).vibrationalCoefficient = none :=
  ⟨by norm_num [totalQuanta],
    vibrational_none_of_zero_total 0.0001 0.999 13.598 (by norm_num [totalQuanta])⟩

/-- C7: the helium record (mass 4.0026, stability 0.999, ionization 24.587)
gets total budget 6404, levels 768/2113/3523 after the shortfall of 1 is
added to the inner level, and 307 Heat quanta on the outer level. -/
theorem helium_profile_concrete :
    totalQuanta 4.0026 = 6404 ∧
    (calculateEnergyProfile 4.0026 0.999 24.587).levels.level1 = 768 ∧
    (calculateEnergyProfile 4.0026 0.999 24.587).levels.level2 = 2113 ∧
    (calculateEnergyProfile 4.0026 0.999 24.587).levels.level3 = 3523 ∧
    (calculateEnergyProfile 4.0026 0.999 24.587).level1Dist EnergyType.heat = 307 := by
  have ht : totalQuanta 4.0026 = 6404 := by norm_num [totalQuanta]
  have h1 : rawLevel 6404 (levelEnergyDistribution EnergyLevel.level1) = 768 := by
    norm_num [rawLevel, levelEnergyDistribution]
  have h2 : rawLevel 6404 (levelEnergyDistribution EnergyLevel.level2) = 2113 := by
    norm_num [rawLevel, levelEnergyDistribution]
  have h3 : rawLevel 6404 (levelEnergyDistribution EnergyLevel.level3) = 3522 := by
    norm_num [rawLevel, levelEnergyDistribution]
  have halloc : allocateLevels 6404 = ⟨768, 2113, 3523⟩ := by
    rw [allocateLevels_eq 6404, h1, h2, h3]
    norm_num
  refine ⟨ht, ?_, ?_, ?_, ?_⟩ <;>
    simp only [calculateEnergyProfile, ht, halloc] <;>
    norm_num [firstLevelEnergyShare]

/-- C9: requesting an atomic number that has no row in the attribute table
makes the factory return the explicit absent sentinel `none`. -/
theorem create_element_lookup_miss (z : ℕ) (h : ∀ d ∈ elementsData, d.z ≠ z) :
    createElement z = none := by
  have hf : elementsData.find? (fun item => item.z == z) = none :=
    List.find?_eq_none.mpr (fun d hd => by simpa using h d hd)
  simp only [createElement, hf]

/-- C9 witness: atomic number 119 is absent from the 118-row table and the
factory returns `none` for it. -/
theorem create_element_lookup_miss_witness :
    (∀ d ∈ elementsData, d.z ≠ 119) ∧ createElement 119 = none :=
  ⟨by decide, create_element_lookup_miss 119 (by decide)⟩

/-- C8: the energy signature is a function of the outer-level category
allocation alone: two constructed elements whose outer-level quanta agree on
the five signature categories get identical signature strings, whatever
their other attributes are. -/
theorem signature_depends_only_on_outer_allocation
    (name1 symbol1 name2 symbol2 : String) (z1 z2 : ℕ) (mass1 mass2 : ℚ)
    (nucleus1 nucleus2 : NucleusStructure) (electrons1 electrons2 : ElectronStructure)
    (h : ∀ e ∈ signatureOrder,
      (mkHybridElement name1 symbol1 z1 mass1 nucleus1 electrons1).energyProfile.level1Dist e =
        (mkHybridElement name2 symbol2 z2 mass2 nucleus2 electrons2).energyProfile.level1Dist e) :
    (mkHybridElement name1 symbol1 z1 mass1 nucleus1 electrons1).energySignature =
      (mkHybridElement name2 symbol2 z2 mass2 nucleus2 electrons2).energySignature := by
  have h1 := h EnergyType.heat (by simp [signatureOrder])
  have h2 := h EnergyType.light (by simp [signatureOrder])
  have h3 := h EnergyType.magnetism (by simp [signatureOrder])
  have h4 := h EnergyType.electricity (by simp [signatureOrder])
  have h5 := h EnergyType.radiowaves (by simp [signatureOrder])
  simp only [mkHybridElement, generateEnergySignature, signatureOrder, List.map_cons,
    List.map_nil] at h1 h2 h3 h4 h5 ⊢
  rw [h1, h2, h3, h4, h5]

/-- C8 witness: two records that differ in name, symbol, atomic number, mass
(4.0026 against 4.0027), stability, configuration and ionization energy but
agree on the outer-level allocation get the same signature. -/
theorem signature_depends_only_on_outer_allocation_witness :
    (∀ e ∈ signatureOrder,
      (mkHybridElement ("Гелий") ("He") 2 4.0026 ⟨2, 2, 0.999, 8, 0, 0⟩
          ⟨("1s²"), 2, 24.587, 7.3761⟩).energyProfile.level1Dist e =
        (mkHybridElement ("Икс") ("Xx") 119 4.0027 ⟨3, 5, 0.1, 7, 0, 0⟩
          ⟨("[Xe] 6s¹"), 1, 5.0, 1.5⟩).energyProfile.level1Dist e) ∧
    (mkHybridElement ("Гелий") ("He") 2 4.0026 ⟨2, 2, 0.999, 8, 0, 0⟩
        ⟨("1s²"), 2, 24.587, 7.3761⟩).energySignature =
      (mkHybridElement ("Икс") ("Xx") 119 4.0027 ⟨3, 5, 0.1, 7, 0, 0⟩
        ⟨("[Xe] 6s¹"), 1, 5.0, 1.5⟩).energySignature := by
  have h : ∀ e ∈ signatureOrder,
      (mkHybridElement ("Гелий") ("He") 2 4.0026 ⟨2, 2, 0.999, 8, 0, 0⟩
          ⟨("1s²"), 2, 24.587, 7.3761⟩).energyProfile.level1Dist e =
        (mkHybridElement ("Икс") ("Xx") 119 4.0027 ⟨3, 5, 0.1, 7, 0, 0⟩
          ⟨("[Xe] 6s¹"), 1, 5.0, 1.5⟩).energyProfile.level1Dist e := by
    intro e he
    simp only [signatureOrder, List.mem_cons, List.not_mem_nil, or_false] at he
    have halloc : allocateLevels (totalQuanta 4.0026) = allocateLevels (totalQuanta 4.0027) := by
      have ha : totalQuanta 4.0026 = 6404 := by norm_num [totalQuanta]
      have hb : totalQuanta 4.0027 = 6404 := by norm_num [totalQuanta]
      rw [ha, hb]
    rcases he with rfl | rfl | rfl | rfl | rfl <;>
      simp only [mkHybridElement, calculateEnergyProfile, halloc]
  exact ⟨h, signature_depends_only_on_outer_allocation
    ("Гелий") ("He") ("Икс") ("Xx") 2 119 4.0026 4.0027 ⟨2, 2, 0.999, 8, 0, 0⟩
    ⟨3, 5, 0.1, 7, 0, 0⟩ ⟨("1s²"), 2, 24.587, 7.3761⟩ ⟨("[Xe] 6s¹"), 1, 5.0, 1.5⟩ h⟩

/-- Monotone bound on the total budget: a mass of at least 1.008 gives at
least 1612 quanta. -/
theorem totalQuanta_ge_of_mass_ge (m : ℚ) (h : 1.008 ≤ m) : 1612 ≤ totalQuanta m := by
  rw [totalQuanta, Int.le_floor]
  push_cast
  linarith

/-- C10: every row of the 118-row attribute table has mass at least 1.008,
hence a strictly positive total budget of at least 1612 quanta, so the
unguarded division in the vibrational coefficient is defined for every row. -/
theorem table_masses_give_defined_profiles (d : ElementData) (hd : d ∈ elementsData) :
    1.008 ≤ d.mass ∧ 1612 ≤ totalQuanta d.mass ∧ 0 < totalQuanta d.mass ∧
    (calculateEnergyProfile d.mass d.stability
      d.ionizationEnergy).vibrationalCoefficient.isSome = true := by
  have hm : 1.008 ≤ d.mass := by
    simp only [elementsData, elementsDataPart1, elementsDataPart2, elementsDataPart3,
      elementsDataPart4, elementsDataPart5, elementsDataPart6, List.mem_append,
      List.mem_cons, List.not_mem_nil, or_false, or_assoc] at hd
    rcases hd with (rfl | rfl | rfl | rfl | rfl | rfl | rfl | rfl | rfl | rfl | rfl | rfl | rfl | rfl | rfl | rfl | rfl | rfl | rfl | rfl | rfl | rfl | rfl | rfl | rfl | rfl | rfl | rfl | rfl | rfl | rfl | rfl | rfl | rfl | rfl | rfl | rfl | rfl | rfl | rfl | rfl | rfl | rfl | rfl | rfl | rfl | rfl | rfl | rfl | rfl | rfl | rfl | rfl | rfl | rfl | rfl | rfl | rfl | rfl | rfl | rfl | rfl | rfl | rfl | rfl | rfl | rfl | rfl | rfl | rfl | rfl | rfl | rfl | rfl | rfl | rfl | rfl | rfl | rfl | rfl | rfl | rfl | rfl | rfl | rfl | rfl | rfl | rfl | rfl | rfl | rfl | rfl | rfl | rfl | rfl | rfl | rfl | rfl | rfl | rfl | rfl | rfl | rfl | rfl | rfl | rfl | rfl | rfl | rfl | rfl | rfl | rfl | rfl | rfl | rfl | rfl | rfl | rfl) <;> norm_num
  have ht : 1612 ≤ totalQuanta d.mass := totalQuanta_ge_of_mass_ge d.mass hm
  have hne : totalQuanta d.mass ≠ 0 := by omega
  refine ⟨hm, ht, by omega, ?_⟩
  simp [calculateEnergyProfile, hne]

/-- C10 witness: the hydrogen row, the first of the table. -/
theorem table_masses_give_defined_profiles_witness :
    ((⟨1, ("H"), ("Водород"), 1.008, ("1s¹"), 1, 0, 0.999, 13.598⟩ : ElementData) ∈
      elementsData) ∧
    (1.008 ≤ (⟨1, ("H"), ("Водород"), 1.008, ("1s¹"), 1, 0, 0.999, 13.598⟩ :
        ElementData).mass ∧
      1612 ≤ totalQuanta (⟨1, ("H"), ("Водород"), 1.008, ("1s¹"), 1, 0, 0.999, 13.598⟩ :
        ElementData).mass ∧
      0 < totalQuanta (⟨1, ("H"), ("Водород"), 1.008, ("1s¹"), 1, 0, 0.999, 13.598⟩ :
        ElementData).mass ∧
      (calculateEnergyProfile
        (⟨1, ("H"), ("Водород"), 1.008, ("1s¹"), 1, 0, 0.999, 13.598⟩ : ElementData).mass
        (⟨1, ("H"), ("Водород"), 1.008, ("1s¹"), 1, 0, 0.999, 13.598⟩ : ElementData).stability
        (⟨1, ("H"), ("Водород"), 1.008, ("1s¹"), 1, 0, 0.999, 13.598⟩ :
          ElementData).ionizationEnergy).vibrationalCoefficient.isSome = true) := by
  have hmem : (⟨1, ("H"), ("Водород"), 1.008, ("1s¹"), 1, 0, 0.999, 13.598⟩ : ElementData) ∈
      elementsData := by
    unfold elementsData elementsDataPart1
    exact List.mem_append_left _ (List.mem_append_left _ (List.mem_append_left _
      (List.mem_append_left _ (List.mem_append_left _ (List.mem_cons_self _ _)))))
  exact ⟨hmem, table_masses_give_defined_profiles _ hmem⟩

end GalacticElements
